import Mathlib

/-!
Verification of the price-reconciliation and vendor-attribution engine of the
pharma_vendor_oportunities repository (source files src/app.py and src/app2.py).

The embedding models pandas DataFrames as Lists of structures; numeric columns
are rationals (ℚ), nullable columns are Option-typed.  Inner merges are
modelled as flatMap/filter joins preserving the pandas row order (left rows in
order, matching right rows in order within each left row); left merges emit a
single row with a none-field when no right row matches.  Row-wise derived
columns are modelled as functions of the row.
-/

/-- Order line of orders_delivered_pos_vendor_geozone.csv (df_pedidos): one
purchased product line.  unidades_pedidas and precio_minimo are numeric columns;
precio_minimo is the price actually paid per unit on the order line. -/
structure Pedido where
  order_id : Nat
  point_of_sale_id : Nat
  vendor_id : Nat
  super_catalog_id : Nat
  unidades_pedidas : ℚ
  precio_minimo : ℚ
  deriving DecidableEq, Repr

/-- Row of pos_geo_zones (app2.py lines 713-736): point of sale with its
geo_zone already extracted from the address and abbreviation-normalized. -/
structure PosGeo where
  point_of_sale_id : Nat
  geo_zone : String
  deriving DecidableEq, Repr

/-- Row of vendors_catalog.csv (df_proveedores): a catalog price entry.  name
is the tier token: "México" marks the national tier, anything else is the
regional zone name.  percentage is nullable (app2.py line 719 fills it with 0). -/
structure CatalogRow where
  vendor_id : Nat
  super_catalog_id : Nat
  name : String
  base_price : ℚ
  percentage : Option ℚ
  deriving DecidableEq, Repr

/-- Row of vendor_pos_relations.csv: status of a vendor for a point of sale. -/
structure VendorPosRel where
  vendor_id : Nat
  point_of_sale_id : Nat
  status : Int
  deriving DecidableEq, Repr

/-- Row of minimum_purchase.csv. -/
structure MinPurchaseRow where
  vendor_id : Nat
  name : String
  min_purchase : ℚ
  deriving DecidableEq, Repr

/-- Row of vendors_dm.csv (after the client_id → vendor_id rename): the
Manufacturer Link between a vendor identity and a drug-manufacturer identity. -/
structure VendorDmRow where
  vendor_id : Nat
  drug_manufacturer_id : Nat
  deriving DecidableEq, Repr

/-- Row of detail_table (app2.py lines 919-922): per-POS purchases grouped by
the vendor actually paid (column renamed there to Droguería/Vendor ID). -/
structure DetailRow where
  pos_id : Nat
  drogueria_id : Nat
  total_comprado : ℚ
  deriving DecidableEq, Repr

/-- Row of dm_vendors_detail (crear_dataframe_vendors_dm, app2.py lines
133-165): detail_table restricted to drug manufacturers, enriched with the
resolved Vendor Real ID (None when no Manufacturer-Link row matches) and, at
app2.py line 980, with the column Valor Compras Ganadores initialized to 0.0
and later overwritten by the redistribution loop (lines 1006-1022). -/
structure DmDetailRow where
  drogueria_id : Nat
  total_comprado : ℚ
  vendor_real_id : Option Nat
  valor_compras_ganadores : ℚ
  deriving DecidableEq, Repr

/-- Output row of actualizar_vendor_analysis (app2.py lines 599-608 and
642-651). -/
structure VendorRow where
  vendor_id : Nat
  status : String
  valor_potencial_total : ℚ
  valor_convertido : ℚ
  compra_minima : ℚ
  es_drug_manufacturer : Bool
  drug_manufacturer_id : Option Nat
  total_comprado_como_dm : ℚ
  deriving DecidableEq, Repr

/-- Row of intersection_sin_repetidos_winners as consumed by
actualizar_vendor_analysis (app2.py lines 554-560): only the resolved vendor id
and the precio_total_vendedor column are read. -/
structure WinnerRow where
  vendor_id : Nat
  precio_total_vendedor : ℚ
  deriving DecidableEq, Repr

/-- Projection of a resolved-price row to the columns read by
agregar_columna_clasificacion (app2.py lines 381-424): order_id,
super_catalog_id, precio_minimo (paid price) and precio_vendedor (catalog sell
price); vendor_id is carried along to distinguish competing catalog rows. -/
structure ClasRow where
  order_id : Nat
  super_catalog_id : Nat
  vendor_id : Nat
  precio_minimo : ℚ
  precio_vendedor : ℚ
  deriving DecidableEq, Repr

/-- Joined row of the candidate set df_pedidos_proveedores (app2.py lines
747-777): an order line paired with a catalog entry, carrying the order side's
geo_zone (None when the POS had no address row, pandas NaN) and the derived
precio_vendedor column. -/
structure CandRow where
  pedido : Pedido
  geo : Option String
  cat : CatalogRow
  precio_vendedor : ℚ
  deriving DecidableEq, Repr

/-- Model of df_proveedores.percentage.fillna(0) (app2.py line 719): a missing
markup percentage is read as 0. -/
def fillna_percentage (p : Option ℚ) : ℚ := p.getD 0

/-- Derived column precio_vendedor (app2.py lines 771-772):
base_price + base_price * percentage / 100. -/
def precio_vendedor_calc (c : CatalogRow) : ℚ :=
  c.base_price + c.base_price * fillna_percentage c.percentage / 100

/-- Derived column precio_total_vendedor (app2.py lines 780-784):
unidades_pedidas * precio_vendedor. -/
def precio_total_vendedor_calc (r : CandRow) : ℚ :=
  r.pedido.unidades_pedidas * r.precio_vendedor

/-- Model of Python address.split(', ') (app2.py line 80) on the character
list of the address: split on every non-overlapping occurrence of
comma-space, scanning left to right; an address with no separator yields the
one-element list holding the whole address. -/
def splitCommaSpace : List Char → List (List Char)
  | [] => [[]]
  | ',' :: ' ' :: rest => [] :: splitCommaSpace rest
  | c :: rest =>
    match splitCommaSpace rest with
    | [] => [[c]]
    | p :: ps => (c :: p) :: ps

/-- Model of the Python slice partes[-2:-1] (app2.py line 81) with Python's
clamping semantics: start = max(len-2, 0), stop = max(len-1, 0); Nat
subtraction performs the clamping. -/
def slice_penultima (l : List String) : List String :=
  (l.drop (l.length - 2)).take ((l.length - 1) - (l.length - 2))

/-- obtener_geo_zone (app2.py lines 70-81, app.py lines 69-71): split the
address on comma-space and join the slice partes[-2:-1] back with comma-space
(a one-element join is that element; an empty join is the empty string). -/
def obtener_geo_zone (address : String) : String :=
  let partes := (splitCommaSpace address.data).map String.mk
  String.intercalate ", " (slice_penultima partes)

/-- Group of a (order_id, super_catalog_id) key inside df.groupby (app2.py
line 400): the rows with that key, in original row order (pandas groupby
preserves within-group order). -/
def grupo (rows : List ClasRow) (oid pid : Nat) : List ClasRow :=
  rows.filter (fun s => s.order_id == oid && s.super_catalog_id == pid)

/-- group precio_minimo .iloc[0 ] of app2.py line 404: the first row's paid
price (0 for an empty group, unreachable in the loop). -/
def precio_minimo_grupo (g : List ClasRow) : ℚ :=
  ((g.head?).map (fun r => r.precio_minimo)).getD 0

/-- group precio_vendedor .min() of app2.py line 407 (0 for an empty group,
unreachable in the loop). -/
def min_precio_vendedor : List ClasRow → ℚ
  | [] => 0
  | r :: rs => rs.foldl (fun m s => min m s.precio_vendedor) r.precio_vendedor

/-- Per-row classification rule of app2.py lines 413-422, applied with the
group's first precio_minimo, the group's minimum precio_vendedor and the row's
own precio_vendedor. -/
def etiqueta (pm minv pv : ℚ) : String :=
  if pm < pv then "Precio droguería minimo"
  else if pv = minv then "Precio vendor minimo"
  else "Precio vendor no minimo"

/-- Label assigned to row r by the grouped loop of
agregar_columna_clasificacion: the loop visits r's
(order_id, super_catalog_id) group and applies etiqueta. -/
def clasificacion_de (rows : List ClasRow) (r : ClasRow) : String :=
  etiqueta (precio_minimo_grupo (grupo rows r.order_id r.super_catalog_id))
    (min_precio_vendedor (grupo rows r.order_id r.super_catalog_id))
    r.precio_vendedor

/-- agregar_columna_clasificacion (app2.py lines 381-424): every row receives
the clasificacion column computed from its group. -/
def agregar_columna_clasificacion (rows : List ClasRow) : List (ClasRow × String) :=
  rows.map (fun r => (r, clasificacion_de rows r))

/-- Left merge of df_pedidos with pos_geo_zones on point_of_sale_id (app2.py
line 743): each order line is paired with each matching geo row; with no match
the line survives with geo = none (pandas NaN). -/
def mergeLeftGeo (pedidos : List Pedido) (geos : List PosGeo) :
    List (Pedido × Option String) :=
  pedidos.flatMap (fun o =>
    let ms := geos.filter (fun g => g.point_of_sale_id == o.point_of_sale_id)
    if ms.isEmpty then [(o, none)] else ms.map (fun g => (o, some g.geo_zone)))

/-- df_pedidos_zonas (app2.py lines 743-744): the geo merge filtered to
unidades_pedidas > 0. -/
def df_pedidos_zonas (pedidos : List Pedido) (geos : List PosGeo) :
    List (Pedido × Option String) :=
  (mergeLeftGeo pedidos geos).filter (fun p => decide (0 < p.1.unidades_pedidas))

/-- df_proveedores_nacional (app2.py line 739): catalog entries whose tier name
is the national token "México". -/
def provNacional (cats : List CatalogRow) : List CatalogRow :=
  cats.filter (fun c => c.name == "México")

/-- df_proveedores_regional (app2.py line 740): all other catalog entries. -/
def provRegional (cats : List CatalogRow) : List CatalogRow :=
  cats.filter (fun c => c.name != "México")

/-- Joined row constructor: the merge keeps both sides' columns and the
precio_vendedor column computed at app2.py lines 771-772. -/
def mkCand (p : Pedido × Option String) (c : CatalogRow) : CandRow :=
  { pedido := p.1, geo := p.2, cat := c, precio_vendedor := precio_vendedor_calc c }

/-- df_pedidos_proveedores_nacional (app2.py lines 747-752): inner merge of
df_pedidos_zonas with the national catalog on super_catalog_id only, then the
unidades_pedidas > 0 filter again. -/
def df_pedidos_proveedores_nacional (pz : List (Pedido × Option String))
    (cats : List CatalogRow) : List CandRow :=
  (pz.flatMap (fun p =>
    ((provNacional cats).filter
      (fun c => c.super_catalog_id == p.1.super_catalog_id)).map (mkCand p))).filter
    (fun r => decide (0 < r.pedido.unidades_pedidas))

/-- df_pedidos_proveedores_regional (app2.py lines 754-761): inner merge of
df_pedidos_zonas with the regional catalog on (super_catalog_id, geo_zone =
name), then the unidades_pedidas > 0 filter again.  A NaN geo_zone (none)
matches no catalog name, as in pandas. -/
def df_pedidos_proveedores_regional (pz : List (Pedido × Option String))
    (cats : List CatalogRow) : List CandRow :=
  (pz.flatMap (fun p =>
    ((provRegional cats).filter
      (fun c => c.super_catalog_id == p.1.super_catalog_id
        && p.2 == some c.name)).map (mkCand p))).filter
    (fun r => decide (0 < r.pedido.unidades_pedidas))

/-- df_pedidos_proveedores (app2.py lines 775-777): the concatenation of the
regional and the national candidate rows, regional rows first. -/
def df_pedidos_proveedores (pedidos : List Pedido) (geos : List PosGeo)
    (cats : List CatalogRow) : List CandRow :=
  df_pedidos_proveedores_regional (df_pedidos_zonas pedidos geos) cats ++
    df_pedidos_proveedores_nacional (df_pedidos_zonas pedidos geos) cats

/-- Deduplication key of app.py line 430: (super_catalog_id, vendor_id_y,
geo_zone), where vendor_id_y is the catalog side's vendor id and geo_zone is
the order side's zone. -/
def key7 (r : CandRow) : Nat × Nat × Option String :=
  (r.cat.super_catalog_id, r.cat.vendor_id, r.geo)

/-- drop_duplicates keep-first on the key (app.py line 430): keep a row iff no
earlier row had its key; seen accumulates the keys already kept. -/
def drop_duplicates_key : List CandRow → List (Nat × Nat × Option String) → List CandRow
  | [], _ => []
  | r :: rs, seen =>
    if key7 r ∈ seen then drop_duplicates_key rs seen
    else r :: drop_duplicates_key rs (key7 r :: seen)

/-- df_pedidos_proveedores_unique (app.py lines 413-430): the concatenated
candidate set with duplicates of the key collapsed keep-first.  Only app.py
performs this step; app2.py keeps df_pedidos_proveedores as is. -/
def df_pedidos_proveedores_unique (pedidos : List Pedido) (geos : List PosGeo)
    (cats : List CatalogRow) : List CandRow :=
  drop_duplicates_key (df_pedidos_proveedores pedidos geos cats) []

/-- Redistribution of the aggregate winners value over the per-vendor values
(app2.py lines 1004-1022, app.py lines 797-815).  vals are the per-vendor
vendor_valores in detail-row order, valor_dm the aggregate
valor_dm_compras_ganadores.  The branch condition is shared by all rows, so
the row loop is a map: within 1 percent keep the individual values, else
scale them by valor_dm / sum when the sum is positive, else split the
aggregate equally over the len(dm_vendors_detail) rows. -/
def redistribuir_ganadores (vals : List ℚ) (valor_dm : ℚ) : List ℚ :=
  let s := vals.sum
  if |s - valor_dm| < 0.01 * valor_dm then vals
  else if 0 < s then vals.map (fun v => v * (valor_dm / s))
  else vals.map (fun _ => valor_dm / (vals.length : ℚ))

/-- obtener_status_vendor (app2.py lines 34-68): first matching
(vendor_id, point_of_sale_id) relation's status, none when absent. -/
def obtener_status_vendor (vendor_id pos_id : Nat) (df_vendors_pos : List VendorPosRel) :
    Option Int :=
  (df_vendors_pos.find?
    (fun x => x.vendor_id == vendor_id && x.point_of_sale_id == pos_id)).map
    (fun x => x.status)

/-- get_status_description (app2.py lines 13-32). -/
def get_status_description : Option Int → String
  | none => "Sin Status"
  | some s =>
    if s = 0 then "Rechazado"
    else if s = 1 then "Activo"
    else if s = 2 then "Pendiente"
    else "Status " ++ toString s

/-- Minimum-purchase lookup of app2.py lines 589-597 and 626-633: first row
matching (vendor_id, name = geo_zone), else 0. -/
def min_purchase_de (df : List MinPurchaseRow) (vendor_id : Nat) (geo_zone : String) : ℚ :=
  (((df.filter (fun m => m.vendor_id == vendor_id && m.name == geo_zone)).head?).map
    (fun m => m.min_purchase)).getD 0

/-- potenciales_por_vendor (app2.py lines 549-560): per vendor, the sum of
precio_total_vendedor over the winner rows of that vendor; a vendor with no
winner row reads the dict default 0, which coincides with the empty sum. -/
def potencial_por_vendor (winners : List WinnerRow) (vendor_id : Nat) : ℚ :=
  ((winners.filter (fun w => w.vendor_id == vendor_id)).map
    (fun w => w.precio_total_vendedor)).sum

/-- pandas Series.unique order: first occurrence of each value, in row order. -/
def unique_first {α : Type} [DecidableEq α] : List α → List α
  | [] => []
  | x :: xs => x :: (unique_first xs).filter (fun y => decide (y ≠ x))

/-- PARTE 1 of actualizar_vendor_analysis (app2.py lines 562-610): one output
row per dm_vendors_detail row whose Vendor Real ID is not null, with no
duplicate check; converted value is Valor Compras Ganadores when positive and
then subtracted from the raw potential, floored at 0 (lines 579-587). -/
def parte1_dm (dm_vendors_detail : List DmDetailRow) (winners : List WinnerRow)
    (df_vendors_pos : List VendorPosRel) (selected_pos : Nat) (geo_zone : String)
    (df_min_purchase : List MinPurchaseRow) : List VendorRow :=
  dm_vendors_detail.filterMap (fun row =>
    row.vendor_real_id.map (fun v =>
      let potential0 := potencial_por_vendor winners v
      let vcg := row.valor_compras_ganadores
      { vendor_id := v,
        status := get_status_description (obtener_status_vendor v selected_pos df_vendors_pos),
        valor_potencial_total := if 0 < vcg then max 0 (potential0 - vcg) else potential0,
        valor_convertido := if 0 < vcg then vcg else 0,
        compra_minima := min_purchase_de df_min_purchase v geo_zone,
        es_drug_manufacturer := true,
        drug_manufacturer_id := some row.drogueria_id,
        total_comprado_como_dm := row.total_comprado }))

/-- PARTE 2 of actualizar_vendor_analysis (app2.py lines 612-653): the unique
winner vendors not already processed, emitted with valor_convertido = 0. -/
def parte2_regular (winners : List WinnerRow) (df_vendors_pos : List VendorPosRel)
    (selected_pos : Nat) (geo_zone : String) (df_min_purchase : List MinPurchaseRow)
    (processed : List Nat) : List VendorRow :=
  ((unique_first (winners.map (fun w => w.vendor_id))).filter
    (fun v => !(processed.contains v))).map
    (fun v =>
      { vendor_id := v,
        status := get_status_description (obtener_status_vendor v selected_pos df_vendors_pos),
        valor_potencial_total := potencial_por_vendor winners v,
        valor_convertido := 0,
        compra_minima := min_purchase_de df_min_purchase v geo_zone,
        es_drug_manufacturer := false,
        drug_manufacturer_id := none,
        total_comprado_como_dm := 0 })

/-- actualizar_vendor_analysis (app2.py lines 526-660): PARTE 1 rows first,
then PARTE 2 rows for winner vendors not in the processed set (which after
PARTE 1 holds exactly the resolved Vendor Real IDs). -/
def actualizar_vendor_analysis (dm_vendors_detail : List DmDetailRow)
    (winners : List WinnerRow) (df_vendors_pos : List VendorPosRel)
    (selected_pos : Nat) (geo_zone : String)
    (df_min_purchase : List MinPurchaseRow) : List VendorRow :=
  let p1 := parte1_dm dm_vendors_detail winners df_vendors_pos selected_pos geo_zone
    df_min_purchase
  p1 ++ parte2_regular winners df_vendors_pos selected_pos geo_zone df_min_purchase
    (p1.map (fun r => r.vendor_id))

/-- crear_dataframe_vendors_dm (app2.py lines 133-165): detail rows whose
Droguería/Vendor ID occurs among the drug_manufacturer_ids, each given the
vendor_id of the first matching Manufacturer-Link row as Vendor Real ID; the
Valor Compras Ganadores column starts at 0.0 (initialized at app2.py line
980 before the redistribution loop overwrites it). -/
def crear_dataframe_vendors_dm (detail_table : List DetailRow)
    (df_vendor_dm : List VendorDmRow) : List DmDetailRow :=
  if detail_table.isEmpty || df_vendor_dm.isEmpty then []
  else
    (detail_table.filter
      (fun r => df_vendor_dm.any (fun d => d.drug_manufacturer_id == r.drogueria_id))).map
      (fun r =>
        { drogueria_id := r.drogueria_id,
          total_comprado := r.total_comprado,
          vendor_real_id :=
            (df_vendor_dm.find?
              (fun d => d.drug_manufacturer_id == r.drogueria_id)).map
              (fun d => d.vendor_id),
          valor_compras_ganadores := 0 })

/-- Writing the redistributed Valor Compras Ganadores values back into the
detail rows (the loop of app2.py lines 1006-1022, one value per row). -/
def set_valor_compras_ganadores (d : List DmDetailRow) (vals : List ℚ) : List DmDetailRow :=
  d.zipWith (fun r v => { r with valor_compras_ganadores := v }) vals

/-- Model of the binding of the module-level name dm_vendors_detail in app2.py:
line 939 assigns it only inside the branch where df_vendor_dm is nonempty
(line 938); on the empty branch (lines 1063-1064) the name is never bound.
none models the unbound name. -/
def module_dm_vendors_detail (df_vendor_dm : List VendorDmRow)
    (detail_table : List DetailRow) : Option (List DmDetailRow) :=
  if df_vendor_dm.isEmpty then none
  else some (crear_dataframe_vendors_dm detail_table df_vendor_dm)

/-- Model of the module-level per-POS vendor analysis flow of app2.py lines
936-1148: build dm_vendors_detail (bound only when df_vendor_dm is nonempty),
apply the winners redistribution to its Valor Compras Ganadores column when it
is nonempty (lines 980-1022, with vendor_valores and
valor_dm_compras_ganadores abstracted as inputs), then call
actualizar_vendor_analysis (lines 1126-1136).  When dm_vendors_detail was
never bound, that call raises NameError, which only the top-level handler at
line 1177 catches; the Except.error value models that abort. -/
def module_vendor_analysis (df_vendor_dm : List VendorDmRow)
    (detail_table : List DetailRow) (vendor_valores : List ℚ)
    (valor_dm_compras_ganadores : ℚ) (winners : List WinnerRow)
    (df_vendors_pos : List VendorPosRel) (selected_pos : Nat) (geo_zone : String)
    (df_min_purchase : List MinPurchaseRow) : Except String (List VendorRow) :=
  match module_dm_vendors_detail df_vendor_dm detail_table with
  | none => Except.error "NameError: name dm_vendors_detail is not defined"
  | some d =>
    let d2 := if d.isEmpty then d
      else set_valor_compras_ganadores d
        (redistribuir_ganadores vendor_valores valor_dm_compras_ganadores)
    Except.ok (actualizar_vendor_analysis d2 winners df_vendors_pos selected_pos
      geo_zone df_min_purchase)

/-- Column projection feeding agregar_columna_clasificacion (app2.py lines
796-812): order keys, paid price, the catalog vendor id and the computed
precio_vendedor.  The vendor-POS status merge of lines 787-791 is guarded by
"vendor_id in df_pedidos_proveedores.columns", which is false at that point:
the catalog merges of lines 747-758 suffix the overlapping vendor column into
vendor_id_x (order side, here pedido.vendor_id) and vendor_id_y (catalog side,
here cat.vendor_id), and the bare name vendor_id only appears with the rename
of line 794 (vendor_id_y → vendor_id).  The merge is therefore skipped and no
status column is attached; cat.vendor_id is the vendor_id column after the
rename.  The min_prices merge of lines 799-809 joins one aggregated row per
(point_of_sale_id, order_id, super_catalog_id) key and only adds the unused
column precio_minimo_orders, leaving the classified rows unchanged. -/
def cand_to_clas (r : CandRow) : ClasRow :=
  { order_id := r.pedido.order_id,
    super_catalog_id := r.pedido.super_catalog_id,
    vendor_id := r.cat.vendor_id,
    precio_minimo := r.pedido.precio_minimo,
    precio_vendedor := r.precio_vendedor }

/-- Derived column total_compra of app2.py lines 820-821:
unidades_pedidas * precio_minimo. -/
def total_compra (o : Pedido) : ℚ :=
  o.unidades_pedidas * o.precio_minimo

/-- pos_vendor_totals (app2.py lines 833-835): total_compra summed per
(point_of_sale_id, vendor_id) group; keys enumerated by first occurrence. -/
def pos_vendor_totals_calc (pedidos : List Pedido) : List (Nat × Nat × ℚ) :=
  (unique_first (pedidos.map (fun o => (o.point_of_sale_id, o.vendor_id)))).map
    (fun k => (k.1, k.2,
      ((pedidos.filter (fun o => o.point_of_sale_id == k.1 && o.vendor_id == k.2)).map
        total_compra).sum))

/-- order_totals (app2.py line 825): total_compra summed per
(point_of_sale_id, order_id) group. -/
def order_totals_calc (pedidos : List Pedido) : List (Nat × Nat × ℚ) :=
  (unique_first (pedidos.map (fun o => (o.point_of_sale_id, o.order_id)))).map
    (fun k => (k.1, k.2,
      ((pedidos.filter (fun o => o.point_of_sale_id == k.1 && o.order_id == k.2)).map
        total_compra).sum))

/-- pos_order_stats (app2.py lines 826-829): per point of sale, the mean of
the per-order totals (promedio_por_orden) and their count (numero_ordenes). -/
def pos_order_stats_calc (pedidos : List Pedido) : List (Nat × ℚ × Nat) :=
  let ot := order_totals_calc pedidos
  (unique_first (ot.map (fun t => t.1))).map
    (fun p =>
      let vals := (ot.filter (fun t => t.1 == p)).map (fun t => t.2.2)
      (p, vals.sum / (vals.length : ℚ), vals.length))

/-- Input tables of load_and_process_data (app2.py lines 695-845), after the
external loader's concerns (CSV reading, geo-zone extraction and abbreviation
normalization) have produced pos_geo_zones.  df_vendors_pos is read at line
703 but, with the status merge of lines 787-791 skipped (see cand_to_clas),
contributes nothing to the outputs. -/
structure ReconInputs where
  pos_geo_zones : List PosGeo
  df_pedidos : List Pedido
  df_proveedores : List CatalogRow
  df_vendors_pos : List VendorPosRel
  df_min_purchase : List MinPurchaseRow
  df_vendor_dm : List VendorDmRow
  deriving DecidableEq, Repr

/-- Output tables of load_and_process_data, in the order of the return at
app2.py line 839: pos_vendor_totals, df_pedidos, pos_order_stats,
df_min_purchase, df_vendor_dm, pos_geo_zones, df_clasificado. -/
structure ReconOutputs where
  pos_vendor_totals : List (Nat × Nat × ℚ)
  df_pedidos : List Pedido
  pos_order_stats : List (Nat × ℚ × Nat)
  df_min_purchase : List MinPurchaseRow
  df_vendor_dm : List VendorDmRow
  pos_geo_zones : List PosGeo
  df_clasificado : List (ClasRow × String)
  deriving DecidableEq, Repr

/-- load_and_process_data (app2.py lines 695-845) composed from the stages
modelled above: geo merge and unit filters, national and regional joins,
precio_vendedor, classification, order statistics and purchase totals.  The
vendor-POS status merge of lines 787-791 never executes (its column guard is
false, see cand_to_clas); df_pedidos, df_min_purchase, df_vendor_dm and
pos_geo_zones are returned as loaded. -/
def load_and_process_data (i : ReconInputs) : ReconOutputs :=
  let cand := df_pedidos_proveedores i.df_pedidos i.pos_geo_zones i.df_proveedores
  { pos_vendor_totals := pos_vendor_totals_calc i.df_pedidos,
    df_pedidos := i.df_pedidos,
    pos_order_stats := pos_order_stats_calc i.df_pedidos,
    df_min_purchase := i.df_min_purchase,
    df_vendor_dm := i.df_vendor_dm,
    pos_geo_zones := i.pos_geo_zones,
    df_clasificado := agregar_columna_clasificacion (cand.map cand_to_clas) }

/-- Concrete classification table for claim C1: one (order, product) group,
paid price 60, two catalog vendors quoting 50 and 70. -/
def filasC1 : List ClasRow :=
  [⟨1, 10, 5, 60, 50⟩, ⟨1, 10, 6, 60, 70⟩]

/-- Concrete classification table for claim C4: one (order, product) group,
paid price 60, two catalog vendors tied at 50. -/
def filasC4 : List ClasRow :=
  [⟨1, 10, 5, 60, 50⟩, ⟨1, 10, 6, 60, 50⟩]

/-- Concrete order line for claims C6 and C7: POS 1, product 10, 2 units. -/
def pedidoE : Pedido :=
  { order_id := 1, point_of_sale_id := 1, vendor_id := 3, super_catalog_id := 10,
    unidades_pedidas := 2, precio_minimo := 60 }

/-- Concrete POS geo table for claims C6 and C7. -/
def geosE : List PosGeo := [⟨1, "Jalisco"⟩]

/-- Concrete catalog for claims C6 and C7: vendor 5 quotes product 10 both in
the regional tier Jalisco and in the national tier. -/
def catsE : List CatalogRow :=
  [⟨5, 10, "Jalisco", 50, none⟩, ⟨5, 10, "México", 40, none⟩]

/-- Concrete detail table for claim C3: one POS bought from the two
drug-manufacturer identities 101 and 102. -/
def detailC3 : List DetailRow := [⟨1, 101, 100⟩, ⟨1, 102, 200⟩]

/-- Concrete Manufacturer Link for claim C3: vendor 7 is credited for both
manufacturer identities 101 and 102. -/
def vendorDmC3 : List VendorDmRow := [⟨7, 101⟩, ⟨7, 102⟩]

/-- Concrete DM detail row for the claim C3 witness. -/
def dmDetailW : List DmDetailRow := [⟨101, 100, some 7, 30⟩]

/-- Concrete winners table for the claim C3 witness. -/
def winnersW : List WinnerRow := [⟨7, 50⟩, ⟨8, 40⟩]

/-- Concrete input bundle for the claim C9 witness. -/
def inputsC9 : ReconInputs :=
  { pos_geo_zones := geosE, df_pedidos := [pedidoE], df_proveedores := catsE,
    df_vendors_pos := [⟨5, 1, 1⟩], df_min_purchase := [⟨5, "Jalisco", 1000⟩],
    df_vendor_dm := [⟨7, 101⟩] }

lemma foldl_min_le_init (l : List ℚ) (a : ℚ) : l.foldl min a ≤ a := by
  induction l generalizing a with
  | nil => simp
  | cons x xs ih => exact le_trans (ih (min a x)) (min_le_left a x)

lemma foldl_min_le_mem (l : List ℚ) (a x : ℚ) (hx : x ∈ l) : l.foldl min a ≤ x := by
  induction l generalizing a with
  | nil => simp at hx
  | cons y ys ih =>
    rcases List.mem_cons.mp hx with rfl | hx2
    · exact le_trans (foldl_min_le_init ys (min a x)) (min_le_right a x)
    · exact ih (min a y) hx2

lemma min_precio_vendedor_cons (h : ClasRow) (t : List ClasRow) :
    min_precio_vendedor (h :: t) =
      (t.map (fun s => s.precio_vendedor)).foldl min h.precio_vendedor := by
  rw [min_precio_vendedor]
  exact (List.foldl_map _ _ _ _).symm

lemma min_precio_vendedor_le (g : List ClasRow) (r : ClasRow) (hr : r ∈ g) :
    min_precio_vendedor g ≤ r.precio_vendedor := by
  cases g with
  | nil => simp at hr
  | cons h t =>
    rw [min_precio_vendedor_cons]
    rcases List.mem_cons.mp hr with rfl | hr2
    · exact foldl_min_le_init _ _
    · exact foldl_min_le_mem _ _ _ (List.mem_map_of_mem _ hr2)

lemma self_mem_grupo (rows : List ClasRow) (r : ClasRow) (hr : r ∈ rows) :
    r ∈ grupo rows r.order_id r.super_catalog_id := by
  simp [grupo, List.mem_filter, hr]

lemma precio_minimo_grupo_eq (rows : List ClasRow) (r : ClasRow) (hr : r ∈ rows)
    (hc : ∀ s ∈ grupo rows r.order_id r.super_catalog_id,
      s.precio_minimo = r.precio_minimo) :
    precio_minimo_grupo (grupo rows r.order_id r.super_catalog_id) = r.precio_minimo := by
  have hmem := self_mem_grupo rows r hr
  cases hg : grupo rows r.order_id r.super_catalog_id with
  | nil => rw [hg] at hmem; simp at hmem
  | cons h t =>
    have hh : h ∈ grupo rows r.order_id r.super_catalog_id := by
      rw [hg]; exact List.mem_cons_self h t
    simp [precio_minimo_grupo, hc h hh]

lemma clasificacion_de_eq (rows : List ClasRow) (r : ClasRow) (hr : r ∈ rows)
    (hc : ∀ s ∈ grupo rows r.order_id r.super_catalog_id,
      s.precio_minimo = r.precio_minimo) :
    clasificacion_de rows r =
      if r.precio_minimo < r.precio_vendedor then "Precio droguería minimo"
      else if r.precio_vendedor =
          min_precio_vendedor (grupo rows r.order_id r.super_catalog_id) then
        "Precio vendor minimo"
      else "Precio vendor no minimo" := by
  unfold clasificacion_de etiqueta
  rw [precio_minimo_grupo_eq rows r hr hc]

lemma drop_penultima (l : List String) (h : 2 ≤ l.length) :
    l.drop (l.length - 2) = [l.getD (l.length - 2) "", l.getD (l.length - 1) ""] := by
  induction l with
  | nil => simp at h
  | cons a t ih =>
    rcases Nat.lt_or_ge t.length 2 with ht | ht
    · have h1 : t.length = 1 := by
        simp only [List.length_cons] at h; omega
      obtain ⟨b, rfl⟩ := List.length_eq_one.mp h1
      simp
    · have e1 : (a :: t).length - 2 = (t.length - 2) + 1 := by
        simp only [List.length_cons]; omega
      have e2 : (a :: t).length - 1 = (t.length - 1) + 1 := by
        simp only [List.length_cons]; omega
      rw [e1, e2, List.drop_succ_cons, List.getD_cons_succ, List.getD_cons_succ, ih ht]

lemma slice_penultima_eq (l : List String) :
    slice_penultima l = if 2 ≤ l.length then [l.getD (l.length - 2) ""] else [] := by
  by_cases h : 2 ≤ l.length
  · rw [if_pos h]
    unfold slice_penultima
    rw [drop_penultima l h]
    have e : (l.length - 1) - (l.length - 2) = 1 := by omega
    rw [e]
    rfl
  · rw [if_neg h]
    match l, h with
    | [], _ => rfl
    | [a], _ => rfl
    | a :: b :: t, h => exact absurd (by simp) h

lemma intercalate_singleton (x : String) : String.intercalate ", " [x] = x := rfl

lemma etiqueta_min (pm mv : ℚ) (h : ¬ pm < mv) :
    etiqueta pm mv mv = "Precio vendor minimo" := by
  unfold etiqueta
  rw [if_neg h, if_pos rfl]

/-- Claim C5: the computed sell price equals base_price × (1 +
markup_percentage / 100) with an absent markup read as 0, and a markup-absent
catalog entry with base_price 100 yields a sell price of exactly 100. -/
theorem C5_precio_vendedor :
    (∀ c : CatalogRow, precio_vendedor_calc c =
      c.base_price * (1 + fillna_percentage c.percentage / 100)) ∧
    precio_vendedor_calc ⟨5, 10, "México", 100, none⟩ = 100 := by
  constructor
  · intro c
    unfold precio_vendedor_calc
    ring
  · norm_num [precio_vendedor_calc, fillna_percentage]

/-- Claim C10: the geo-zone extractor is a total function of the address; on an
address whose comma-space split has at least two segments it returns the
second-to-last segment, and on fewer than two segments it returns the empty
string. -/
theorem C10_obtener_geo_zone (address : String) :
    (2 ≤ ((splitCommaSpace address.data).map String.mk).length →
      obtener_geo_zone address =
        ((splitCommaSpace address.data).map String.mk).getD
          (((splitCommaSpace address.data).map String.mk).length - 2) "") ∧
    (((splitCommaSpace address.data).map String.mk).length < 2 →
      obtener_geo_zone address = "") := by
  constructor
  · intro h
    show String.intercalate ", "
        (slice_penultima ((splitCommaSpace address.data).map String.mk)) =
      ((splitCommaSpace address.data).map String.mk).getD
        (((splitCommaSpace address.data).map String.mk).length - 2) ""
    rw [slice_penultima_eq, if_pos h]
    exact intercalate_singleton _
  · intro h
    show String.intercalate ", "
        (slice_penultima ((splitCommaSpace address.data).map String.mk)) = ""
    rw [slice_penultima_eq, if_neg (by omega)]
    rfl

/-- Witness for C10 at a four-segment address: the extractor returns the
second-to-last segment. -/
theorem C10_obtener_geo_zone_witness :
    obtener_geo_zone "Calle 5 Num 3, Guadalajara, Jal., Mexico" = "Jal." := by
  have h := (C10_obtener_geo_zone "Calle 5 Num 3, Guadalajara, Jal., Mexico").1 (by decide)
  rw [h]
  rfl

/-- Claim C2: after the redistribution fallback of the DM winners attribution,
the per-vendor winning values sum to the aggregate within 1 percent relative
tolerance, for any nonempty vendor list and nonnegative aggregate. -/
theorem C2_redistribucion (vals : List ℚ) (valor_dm : ℚ)
    (hne : vals ≠ []) (hdm : 0 ≤ valor_dm) :
    |(redistribuir_ganadores vals valor_dm).sum - valor_dm| ≤ 0.01 * valor_dm := by
  have h001 : (0 ≤ (0.01 : ℚ)) := by norm_num
  unfold redistribuir_ganadores
  by_cases h1 : |vals.sum - valor_dm| < 0.01 * valor_dm
  · rw [if_pos h1]
    exact le_of_lt h1
  · rw [if_neg h1]
    by_cases h2 : 0 < vals.sum
    · rw [if_pos h2]
      have hs : (vals.map (fun v => v * (valor_dm / vals.sum))).sum
          = vals.sum * (valor_dm / vals.sum) := by
        simp [List.sum_map_mul_right]
      rw [hs, mul_comm, div_mul_cancel₀ _ (ne_of_gt h2)]
      simpa using mul_nonneg h001 hdm
    · rw [if_neg h2]
      have hlen : (vals.length : ℚ) ≠ 0 := by
        have : vals.length ≠ 0 := by
          simpa [List.length_eq_zero] using hne
        exact_mod_cast this
      have hs : (vals.map (fun _ => valor_dm / (vals.length : ℚ))).sum
          = (vals.length : ℚ) * (valor_dm / (vals.length : ℚ)) := by
        rw [List.map_const']
        simp [List.sum_replicate, nsmul_eq_mul]
      rw [hs, mul_comm, div_mul_cancel₀ _ hlen]
      simpa using mul_nonneg h001 hdm

/-- Witness for C2 on two vendors with individual values 1 and 3 against an
aggregate of 100: the scaled values sum to the aggregate exactly. -/
theorem C2_redistribucion_witness :
    |(redistribuir_ganadores [1, 3] 100).sum - 100| ≤ 0.01 * 100 :=
  C2_redistribucion [1, 3] 100 (by simp) (by norm_num)

/-- Counterexample to claim C1 as stated: in the group of filasC1 the paid
price 60 is not below the group minimum 50, so the claim requires the
non-minimum row (sell price 70) to be labeled "Precio vendor no minimo", but
the code labels it "Precio droguería minimo" because the paid price is below
that row's own sell price (app2.py line 416 compares row-wise). -/
theorem C1_counterexample :
    ¬ precio_minimo_grupo (grupo filasC1 1 10) < min_precio_vendedor (grupo filasC1 1 10) ∧
    (⟨1, 10, 6, 60, 70⟩ : ClasRow).precio_vendedor ≠
      min_precio_vendedor (grupo filasC1 1 10) ∧
    clasificacion_de filasC1 ⟨1, 10, 6, 60, 70⟩ ≠ "Precio vendor no minimo" ∧
    agregar_columna_clasificacion filasC1 =
      [(⟨1, 10, 5, 60, 50⟩, "Precio vendor minimo"),
        (⟨1, 10, 6, 60, 70⟩, "Precio droguería minimo")] := by
  refine ⟨by decide, by decide, by decide, by decide⟩

/-- Claim C1 (amended): for every resolved row r of a group with constant
precio_minimo, the emitted pair is in the output; if the paid price is below
the group minimum the row is labeled "Precio droguería minimo"; otherwise a
row is labeled "Precio vendor minimo" exactly when its sell price equals the
group minimum, and a non-minimum row is labeled "Precio droguería minimo" when
the paid price is below its own sell price and "Precio vendor no minimo"
otherwise; every row receives exactly one of the three labels. -/
theorem C1_clasificacion (rows : List ClasRow) (r : ClasRow) (hr : r ∈ rows)
    (hc : ∀ s ∈ grupo rows r.order_id r.super_catalog_id,
      s.precio_minimo = r.precio_minimo) :
    (r, clasificacion_de rows r) ∈ agregar_columna_clasificacion rows ∧
    (r.precio_minimo < min_precio_vendedor (grupo rows r.order_id r.super_catalog_id) →
      clasificacion_de rows r = "Precio droguería minimo") ∧
    (¬ r.precio_minimo < min_precio_vendedor (grupo rows r.order_id r.super_catalog_id) →
      ((clasificacion_de rows r = "Precio vendor minimo" ↔
        r.precio_vendedor =
          min_precio_vendedor (grupo rows r.order_id r.super_catalog_id)) ∧
      (r.precio_vendedor ≠
          min_precio_vendedor (grupo rows r.order_id r.super_catalog_id) →
        clasificacion_de rows r =
          if r.precio_minimo < r.precio_vendedor then "Precio droguería minimo"
          else "Precio vendor no minimo"))) ∧
    (clasificacion_de rows r = "Precio droguería minimo" ∨
      clasificacion_de rows r = "Precio vendor minimo" ∨
      clasificacion_de rows r = "Precio vendor no minimo") := by
  have hlabel := clasificacion_de_eq rows r hr hc
  have hmv : min_precio_vendedor (grupo rows r.order_id r.super_catalog_id)
      ≤ r.precio_vendedor :=
    min_precio_vendedor_le _ r (self_mem_grupo rows r hr)
  refine ⟨List.mem_map.mpr ⟨r, hr, rfl⟩, ?_, ?_, ?_⟩
  · intro hlt
    rw [hlabel, if_pos (lt_of_lt_of_le hlt hmv)]
  · intro hge
    constructor
    · rw [hlabel]
      split_ifs with h1 h2
      · constructor
        · intro hh
          exact absurd hh (by decide)
        · intro hh
          exact absurd (hh ▸ h1) hge
      · exact iff_of_true rfl h2
      · exact iff_of_false (by decide) h2
    · intro hne
      rw [hlabel]
      split_ifs with h1
      · rfl
      · rfl
  · rw [hlabel]
    split_ifs <;> simp

/-- Witness for the amended C1 at the minimum-price row of filasC1: it is
labeled "Precio vendor minimo". -/
theorem C1_clasificacion_witness :
    clasificacion_de filasC1 ⟨1, 10, 5, 60, 50⟩ = "Precio vendor minimo" := by
  have h := C1_clasificacion filasC1 ⟨1, 10, 5, 60, 50⟩ (by decide) (by decide)
  exact (h.2.2.1 (by decide)).1.mpr (by decide)

/-- Claim C4: when two rows of the same (order_id, super_catalog_id) group tie
at the group's minimum sell price and the paid price is not below that
minimum, both rows are labeled "Precio vendor minimo". -/
theorem C4_empates (rows : List ClasRow) (r s : ClasRow) (hr : r ∈ rows) (hs : s ∈ rows)
    (hko : s.order_id = r.order_id) (hkp : s.super_catalog_id = r.super_catalog_id)
    (hminr : r.precio_vendedor =
      min_precio_vendedor (grupo rows r.order_id r.super_catalog_id))
    (hmins : s.precio_vendedor =
      min_precio_vendedor (grupo rows r.order_id r.super_catalog_id))
    (hpaid : ¬ precio_minimo_grupo (grupo rows r.order_id r.super_catalog_id) <
      min_precio_vendedor (grupo rows r.order_id r.super_catalog_id)) :
    clasificacion_de rows r = "Precio vendor minimo" ∧
    clasificacion_de rows s = "Precio vendor minimo" := by
  constructor
  · have e : clasificacion_de rows r =
        etiqueta (precio_minimo_grupo (grupo rows r.order_id r.super_catalog_id))
          (min_precio_vendedor (grupo rows r.order_id r.super_catalog_id))
          r.precio_vendedor := rfl
    rw [e, hminr]
    exact etiqueta_min _ _ hpaid
  · have e : clasificacion_de rows s =
        etiqueta (precio_minimo_grupo (grupo rows s.order_id s.super_catalog_id))
          (min_precio_vendedor (grupo rows s.order_id s.super_catalog_id))
          s.precio_vendedor := rfl
    rw [e, hko, hkp, hmins]
    exact etiqueta_min _ _ hpaid

/-- Witness for C4 on filasC4: both rows tied at 50 with paid price 60 are
labeled "Precio vendor minimo". -/
theorem C4_empates_witness :
    clasificacion_de filasC4 ⟨1, 10, 5, 60, 50⟩ = "Precio vendor minimo" ∧
    clasificacion_de filasC4 ⟨1, 10, 6, 60, 50⟩ = "Precio vendor minimo" :=
  C4_empates filasC4 ⟨1, 10, 5, 60, 50⟩ ⟨1, 10, 6, 60, 50⟩ (by decide) (by decide)
    rfl rfl (by decide) (by decide) (by decide)

lemma mkCand_inj {p q : Pedido × Option String} {c d : CatalogRow}
    (h : mkCand p c = mkCand q d) : p = q ∧ c = d := by
  have h1 := congrArg CandRow.pedido h
  have h2 := congrArg CandRow.geo h
  have h3 := congrArg CandRow.cat h
  exact ⟨Prod.ext h1 h2, h3⟩

lemma mem_join_nacional (pz : List (Pedido × Option String)) (cats : List CatalogRow)
    (o : Pedido) (g : Option String) (c : CatalogRow) :
    mkCand (o, g) c ∈ df_pedidos_proveedores_nacional pz cats ↔
      ((o, g) ∈ pz ∧ c ∈ cats ∧ c.name = "México" ∧
        c.super_catalog_id = o.super_catalog_id ∧ 0 < o.unidades_pedidas) := by
  unfold df_pedidos_proveedores_nacional provNacional
  rw [List.mem_filter]
  simp only [List.mem_flatMap, List.mem_map, List.mem_filter, Bool.and_eq_true,
    beq_iff_eq, decide_eq_true_eq]
  constructor
  · rintro ⟨⟨p, hp, c', ⟨⟨hc', hname⟩, hsup⟩, heq⟩, hu⟩
    obtain ⟨hpq, hcd⟩ := mkCand_inj heq
    subst hcd
    subst hpq
    exact ⟨hp, hc', hname, hsup, hu⟩
  · rintro ⟨hp, hc, hname, hsup, hu⟩
    exact ⟨⟨(o, g), hp, c, ⟨⟨hc, hname⟩, hsup⟩, rfl⟩, hu⟩

lemma mem_join_regional (pz : List (Pedido × Option String)) (cats : List CatalogRow)
    (o : Pedido) (g : Option String) (c : CatalogRow) :
    mkCand (o, g) c ∈ df_pedidos_proveedores_regional pz cats ↔
      ((o, g) ∈ pz ∧ c ∈ cats ∧ c.name ≠ "México" ∧
        c.super_catalog_id = o.super_catalog_id ∧ g = some c.name ∧
        0 < o.unidades_pedidas) := by
  unfold df_pedidos_proveedores_regional provRegional
  rw [List.mem_filter]
  simp only [List.mem_flatMap, List.mem_map, List.mem_filter, Bool.and_eq_true,
    beq_iff_eq, bne_iff_ne, decide_eq_true_eq]
  constructor
  · rintro ⟨⟨p, hp, c', ⟨⟨hc', hname⟩, hsup, hgeo⟩, heq⟩, hu⟩
    obtain ⟨hpq, hcd⟩ := mkCand_inj heq
    subst hcd
    subst hpq
    exact ⟨hp, hc', hname, hsup, hgeo, hu⟩
  · rintro ⟨hp, hc, hname, hsup, hgeo, hu⟩
    exact ⟨⟨(o, g), hp, c, ⟨⟨hc, hname⟩, hsup, hgeo⟩, rfl⟩, hu⟩

/-- Claim C6: a candidate pairing of an order line (with its merged geo zone)
and a catalog entry appears in the concatenated candidate set exactly when the
line survives the units filter and the entry matches nationally (product id
only) or regionally (product id and geo_zone equal to the catalog region
name); nothing else is dropped. -/
theorem C6_candidatos (pedidos : List Pedido) (geos : List PosGeo) (cats : List CatalogRow)
    (o : Pedido) (g : Option String) (c : CatalogRow) :
    mkCand (o, g) c ∈ df_pedidos_proveedores pedidos geos cats ↔
      ((o, g) ∈ mergeLeftGeo pedidos geos ∧ 0 < o.unidades_pedidas ∧ c ∈ cats ∧
        ((c.name ≠ "México" ∧ c.super_catalog_id = o.super_catalog_id ∧
            g = some c.name) ∨
          (c.name = "México" ∧ c.super_catalog_id = o.super_catalog_id))) := by
  unfold df_pedidos_proveedores
  rw [List.mem_append, mem_join_regional, mem_join_nacional]
  have hpz : ∀ (o' : Pedido) (g' : Option String),
      (o', g') ∈ df_pedidos_zonas pedidos geos ↔
        ((o', g') ∈ mergeLeftGeo pedidos geos ∧ 0 < o'.unidades_pedidas) := by
    intro o' g'
    unfold df_pedidos_zonas
    simp [List.mem_filter]
  rw [hpz]
  tauto

/-- Witness for C6: the regional entry of catsE is a candidate for pedidoE. -/
theorem C6_candidatos_witness :
    mkCand (pedidoE, some "Jalisco") (⟨5, 10, "Jalisco", 50, none⟩ : CatalogRow) ∈
      df_pedidos_proveedores [pedidoE] geosE catsE :=
  (C6_candidatos [pedidoE] geosE catsE pedidoE (some "Jalisco")
      ⟨5, 10, "Jalisco", 50, none⟩).mpr
    ⟨by decide, by decide, by decide, Or.inl ⟨by decide, rfl, rfl⟩⟩

lemma drop_duplicates_key_not_seen {l : List CandRow}
    {seen : List (Nat × Nat × Option String)} {r : CandRow}
    (h : r ∈ drop_duplicates_key l seen) : key7 r ∉ seen := by
  induction l generalizing seen with
  | nil => simp [drop_duplicates_key] at h
  | cons hd tl ih =>
    rw [drop_duplicates_key] at h
    split at h
    · exact ih h
    · rcases List.mem_cons.mp h with rfl | h2
      · assumption
      · intro hin
        exact (ih h2) (List.mem_cons_of_mem _ hin)

lemma drop_duplicates_key_find {l : List CandRow}
    {seen : List (Nat × Nat × Option String)} {r : CandRow}
    (h : r ∈ drop_duplicates_key l seen) :
    l.find? (fun s => key7 s == key7 r) = some r := by
  induction l generalizing seen with
  | nil => simp [drop_duplicates_key] at h
  | cons hd tl ih =>
    rw [drop_duplicates_key] at h
    by_cases hseen : key7 hd ∈ seen
    · rw [if_pos hseen] at h
      have hnot : key7 r ∉ seen := drop_duplicates_key_not_seen h
      have hne : (key7 hd == key7 r) = false := by
        rw [beq_eq_false_iff_ne]
        intro he
        exact hnot (he ▸ hseen)
      rw [List.find?_cons_of_neg _ (by simp [hne])]
      exact ih h
    · rw [if_neg hseen] at h
      rcases List.mem_cons.mp h with rfl | h2
      · exact List.find?_cons_of_pos _ (by simp)
      · have hnot : key7 r ∉ (key7 hd :: seen) := drop_duplicates_key_not_seen h2
        have hne : (key7 hd == key7 r) = false := by
          rw [beq_eq_false_iff_ne]
          intro he
          exact hnot (by rw [← he]; exact List.mem_cons_self _ _)
        rw [List.find?_cons_of_neg _ (by simp [hne])]
        exact ih h2

lemma drop_duplicates_key_nodup (l : List CandRow)
    (seen : List (Nat × Nat × Option String)) :
    ((drop_duplicates_key l seen).map key7).Nodup := by
  induction l generalizing seen with
  | nil => simp [drop_duplicates_key]
  | cons hd tl ih =>
    rw [drop_duplicates_key]
    by_cases hseen : key7 hd ∈ seen
    · rw [if_pos hseen]
      exact ih seen
    · rw [if_neg hseen]
      simp only [List.map_cons, List.nodup_cons]
      constructor
      · intro hmem
        obtain ⟨s, hs, hks⟩ := List.mem_map.mp hmem
        exact (drop_duplicates_key_not_seen hs)
          (by rw [hks]; exact List.mem_cons_self _ _)
      · exact ih _

lemma drop_duplicates_key_complete {l : List CandRow}
    {seen : List (Nat × Nat × Option String)} {k : Nat × Nat × Option String}
    (hk : k ∈ l.map key7) (hns : k ∉ seen) :
    k ∈ (drop_duplicates_key l seen).map key7 := by
  induction l generalizing seen with
  | nil => simp at hk
  | cons hd tl ih =>
    rw [drop_duplicates_key]
    simp only [List.map_cons, List.mem_cons] at hk
    by_cases hseen : key7 hd ∈ seen
    · rw [if_pos hseen]
      rcases hk with rfl | hk2
      · exact absurd hseen hns
      · exact ih hk2 hns
    · rw [if_neg hseen]
      simp only [List.map_cons, List.mem_cons]
      rcases hk with rfl | hk2
      · exact Or.inl rfl
      · by_cases hkhd : k = key7 hd
        · exact Or.inl hkhd
        · refine Or.inr (ih hk2 ?_)
          simp only [List.mem_cons, not_or]
          exact ⟨hkhd, hns⟩

lemma find?_append_left {α : Type} (a b : List α) (p : α → Bool)
    (h : ∃ x ∈ a, p x = true) : (a ++ b).find? p = a.find? p := by
  induction a with
  | nil =>
    obtain ⟨x, hx, _⟩ := h
    simp at hx
  | cons y ys ih =>
    simp only [List.cons_append, List.find?]
    cases hp : p y with
    | true => rfl
    | false =>
      apply ih
      obtain ⟨x, hx, hpx⟩ := h
      rcases List.mem_cons.mp hx with rfl | hx2
      · rw [hp] at hpx
        cases hpx
      · exact ⟨x, hx2, hpx⟩

/-- Claim C7 (amended): only app.py collapses the concatenated candidate rows;
there, one row per (super_catalog_id, catalog vendor, geo_zone) key survives,
each kept row is the first of its key in concatenation order, every key of the
input survives, and a key carried by any regional row keeps a regional row
(the regional rows are concatenated before the national rows; no explicit sort
is performed). -/
theorem C7_drop_duplicates (pedidos : List Pedido) (geos : List PosGeo)
    (cats : List CatalogRow) :
    (((df_pedidos_proveedores_unique pedidos geos cats).map key7).Nodup) ∧
    (∀ r ∈ df_pedidos_proveedores_unique pedidos geos cats,
      (df_pedidos_proveedores pedidos geos cats).find? (fun s => key7 s == key7 r)
        = some r) ∧
    (∀ r ∈ df_pedidos_proveedores pedidos geos cats,
      key7 r ∈ (df_pedidos_proveedores_unique pedidos geos cats).map key7) ∧
    (∀ r ∈ df_pedidos_proveedores_unique pedidos geos cats,
      key7 r ∈ (df_pedidos_proveedores_regional
          (df_pedidos_zonas pedidos geos) cats).map key7 →
        r ∈ df_pedidos_proveedores_regional (df_pedidos_zonas pedidos geos) cats) := by
  refine ⟨drop_duplicates_key_nodup _ _, ?_, ?_, ?_⟩
  · intro r hr
    exact drop_duplicates_key_find hr
  · intro r hr
    exact drop_duplicates_key_complete (List.mem_map_of_mem _ hr) (by simp)
  · intro r hr hreg
    obtain ⟨s, hs, hks⟩ := List.mem_map.mp hreg
    have hfind := drop_duplicates_key_find hr
    have heq : (df_pedidos_proveedores pedidos geos cats).find?
          (fun x => key7 x == key7 r)
        = (df_pedidos_proveedores_regional (df_pedidos_zonas pedidos geos) cats).find?
          (fun x => key7 x == key7 r) := by
      unfold df_pedidos_proveedores
      exact find?_append_left _ _ _ ⟨s, hs, by simp [hks]⟩
    rw [heq] at hfind
    exact List.mem_of_find?_eq_some hfind

/-- Witness for the amended C7: on pedidoE joined against catsE the retained
row is the first (regional) row of the duplicated key. -/
theorem C7_drop_duplicates_witness :
    (df_pedidos_proveedores [pedidoE] geosE catsE).find?
      (fun s => key7 s ==
        key7 (mkCand (pedidoE, some "Jalisco") ⟨5, 10, "Jalisco", 50, none⟩)) =
      some (mkCand (pedidoE, some "Jalisco") ⟨5, 10, "Jalisco", 50, none⟩) :=
  (C7_drop_duplicates [pedidoE] geosE catsE).2.1 _ (List.mem_cons_self _ _)

/-- Counterexample to claim C7 as stated: app2.py (cited lines 774-794)
performs no collapse, and with catsE's vendor 5 quoting product 10 in both
tiers the concatenated candidate set of app2.py keeps two rows with the same
(super_catalog_id, vendor, geo_zone) key. -/
theorem C7_counterexample :
    ((df_pedidos_proveedores [pedidoE] geosE catsE).map key7)
      = [(10, 5, some "Jalisco"), (10, 5, some "Jalisco")] ∧
    ¬ ((df_pedidos_proveedores [pedidoE] geosE catsE).map key7).Nodup := by
  refine ⟨by decide, by decide⟩

lemma potencial_por_vendor_nonneg (winners : List WinnerRow) (v : Nat)
    (hw : ∀ w ∈ winners, 0 ≤ w.precio_total_vendedor) :
    0 ≤ potencial_por_vendor winners v := by
  unfold potencial_por_vendor
  apply List.sum_nonneg
  intro x hx
  obtain ⟨w, hwmem, rfl⟩ := List.mem_map.mp hx
  exact hw w (List.mem_filter.mp hwmem).1

lemma parte1_dm_ids (d : List DmDetailRow) (winners : List WinnerRow)
    (vp : List VendorPosRel) (pos : Nat) (gz : String) (mp : List MinPurchaseRow) :
    (parte1_dm d winners vp pos gz mp).map (fun r => r.vendor_id)
      = d.filterMap (fun row => row.vendor_real_id) := by
  induction d with
  | nil => rfl
  | cons hd tl ih =>
    unfold parte1_dm at ih ⊢
    rw [List.filterMap_cons, List.filterMap_cons]
    cases hvr : hd.vendor_real_id with
    | none => simpa [hvr] using ih
    | some v => simpa [hvr] using ih

lemma mem_unique_first {α : Type} [DecidableEq α] (a : α) (l : List α) :
    a ∈ unique_first l ↔ a ∈ l := by
  induction l with
  | nil => simp [unique_first]
  | cons x xs ih =>
    simp only [unique_first, List.mem_cons, List.mem_filter, decide_eq_true_eq, ih]
    by_cases hax : a = x
    · simp [hax]
    · simp [hax]

lemma nodup_unique_first {α : Type} [DecidableEq α] (l : List α) :
    (unique_first l).Nodup := by
  induction l with
  | nil => simp [unique_first]
  | cons x xs ih =>
    simp only [unique_first, List.nodup_cons]
    constructor
    · intro hmem
      have := (List.mem_filter.mp hmem).2
      simp at this
    · exact ih.filter _

lemma parte2_regular_ids (winners : List WinnerRow) (vp : List VendorPosRel)
    (pos : Nat) (gz : String) (mp : List MinPurchaseRow) (processed : List Nat) :
    (parte2_regular winners vp pos gz mp processed).map (fun r => r.vendor_id)
      = (unique_first (winners.map (fun w => w.vendor_id))).filter
          (fun v => !(processed.contains v)) := by
  unfold parte2_regular
  generalize (unique_first (winners.map (fun w => w.vendor_id))).filter
      (fun v => !(processed.contains v)) = l
  induction l with
  | nil => rfl
  | cons x xs ih => simp [ih]

/-- Counterexample to claim C3 as stated: vendor 7 is credited for both
manufacturer identities 101 and 102 of the Manufacturer Link, so
crear_dataframe_vendors_dm resolves both detail rows to Vendor Real ID 7, and
PARTE 1 of actualizar_vendor_analysis (which performs no duplicate check,
app2.py lines 562-610) emits vendor 7 twice. -/
theorem C3_counterexample :
    ((actualizar_vendor_analysis
        (crear_dataframe_vendors_dm detailC3 vendorDmC3) [] [] 1 "Jalisco" []).map
      (fun r => r.vendor_id)) = [7, 7] ∧
    ¬ (((actualizar_vendor_analysis
        (crear_dataframe_vendors_dm detailC3 vendorDmC3) [] [] 1 "Jalisco" []).map
      (fun r => r.vendor_id))).Nodup := by
  refine ⟨by decide, by decide⟩

/-- Claim C3 (amended): every DM-detail row with a resolved vendor id is
emitted with converted value = its positive Valor Compras Ganadores (else 0)
and potential floored at zero after subtraction; every winner vendor not among
the resolved ids is emitted with converted value 0 as a non-manufacturer; and
when the resolved vendor ids of the DM detail are pairwise distinct no vendor
id appears in more than one output row (distinct detail rows resolving to the
same vendor id each produce a row, so the distinctness hypothesis is
necessary). -/
theorem C3_vendor_analysis (dm : List DmDetailRow) (winners : List WinnerRow)
    (vp : List VendorPosRel) (pos : Nat) (gz : String) (mp : List MinPurchaseRow)
    (hnodup : (dm.filterMap (fun row => row.vendor_real_id)).Nodup)
    (hw : ∀ w ∈ winners, 0 ≤ w.precio_total_vendedor) :
    (∀ row ∈ dm, ∀ v : Nat, row.vendor_real_id = some v →
      ∃ r ∈ actualizar_vendor_analysis dm winners vp pos gz mp,
        r.vendor_id = v ∧ r.es_drug_manufacturer = true ∧
        r.valor_convertido =
          (if 0 < row.valor_compras_ganadores then row.valor_compras_ganadores
            else 0) ∧
        r.valor_potencial_total =
          max 0 (potencial_por_vendor winners v - r.valor_convertido)) ∧
    (∀ v ∈ winners.map (fun w => w.vendor_id),
      v ∉ dm.filterMap (fun row => row.vendor_real_id) →
      ∃ r ∈ actualizar_vendor_analysis dm winners vp pos gz mp,
        r.vendor_id = v ∧ r.es_drug_manufacturer = false ∧
        r.valor_convertido = 0) ∧
    ((actualizar_vendor_analysis dm winners vp pos gz mp).map
      (fun r => r.vendor_id)).Nodup := by
  refine ⟨?_, ?_, ?_⟩
  · intro row hrow v hv
    refine ⟨VendorRow.mk v
        (get_status_description (obtener_status_vendor v pos vp))
        (if 0 < row.valor_compras_ganadores then
            max 0 (potencial_por_vendor winners v - row.valor_compras_ganadores)
          else potencial_por_vendor winners v)
        (if 0 < row.valor_compras_ganadores then row.valor_compras_ganadores else 0)
        (min_purchase_de mp v gz) true (some row.drogueria_id) row.total_comprado,
      ?_, rfl, rfl, rfl, ?_⟩
    · unfold actualizar_vendor_analysis
      apply List.mem_append_left
      unfold parte1_dm
      exact List.mem_filterMap.mpr ⟨row, hrow, by rw [hv]; rfl⟩
    · by_cases hv0 : 0 < row.valor_compras_ganadores
      · simp only [if_pos hv0]
      · simp only [if_neg hv0, sub_zero]
        exact (max_eq_right (potencial_por_vendor_nonneg winners v hw)).symm
  · intro v hv hnot
    refine ⟨VendorRow.mk v
        (get_status_description (obtener_status_vendor v pos vp))
        (potencial_por_vendor winners v) 0 (min_purchase_de mp v gz) false none 0,
      ?_, rfl, rfl, rfl⟩
    unfold actualizar_vendor_analysis
    apply List.mem_append_right
    unfold parte2_regular
    apply List.mem_map.mpr
    refine ⟨v, List.mem_filter.mpr ⟨(mem_unique_first v _).mpr hv, ?_⟩, rfl⟩
    rw [parte1_dm_ids]
    simpa using hnot
  · unfold actualizar_vendor_analysis
    rw [List.map_append, parte1_dm_ids, parte2_regular_ids, List.nodup_append]
    refine ⟨hnodup, (nodup_unique_first _).filter _, ?_⟩
    intro a ha hb
    have hcond := (List.mem_filter.mp hb).2
    simp only [Bool.not_eq_true'] at hcond
    rw [List.contains_eq_any_beq] at hcond
    have hnotin : a ∉ dm.filterMap (fun row => row.vendor_real_id) := by
      intro hmem
      have hany : (dm.filterMap (fun row => row.vendor_real_id)).any (fun x => a == x)
          = true := List.any_eq_true.mpr ⟨a, hmem, by simp⟩
      rw [hany] at hcond
      cases hcond
    exact hnotin ha

/-- Witness for the amended C3: one resolved DM row (vendor 7, winners value
30) and winner vendors 7 and 8. -/
theorem C3_vendor_analysis_witness :
    (∀ row ∈ dmDetailW, ∀ v : Nat, row.vendor_real_id = some v →
      ∃ r ∈ actualizar_vendor_analysis dmDetailW winnersW [] 1 "Jalisco" [],
        r.vendor_id = v ∧ r.es_drug_manufacturer = true ∧
        r.valor_convertido =
          (if 0 < row.valor_compras_ganadores then row.valor_compras_ganadores
            else 0) ∧
        r.valor_potencial_total =
          max 0 (potencial_por_vendor winnersW v - r.valor_convertido)) ∧
    (∀ v ∈ winnersW.map (fun w => w.vendor_id),
      v ∉ dmDetailW.filterMap (fun row => row.vendor_real_id) →
      ∃ r ∈ actualizar_vendor_analysis dmDetailW winnersW [] 1 "Jalisco" [],
        r.vendor_id = v ∧ r.es_drug_manufacturer = false ∧
        r.valor_convertido = 0) ∧
    ((actualizar_vendor_analysis dmDetailW winnersW [] 1 "Jalisco" []).map
      (fun r => r.vendor_id)).Nodup :=
  C3_vendor_analysis dmDetailW winnersW [] 1 "Jalisco" [] (by decide) (by decide)

/-- Claim C8, the code evaluated at the failing input: with vendors_dm.csv
missing or empty the module-level name dm_vendors_detail is never bound
(app2.py line 939 sits under the nonempty guard of line 938), so the call of
actualizar_vendor_analysis at lines 1126-1136 raises NameError and the
top-level handler of line 1177 replaces the whole per-POS analysis with an
error; no vendor rows are emitted. -/
theorem C8_name_error :
    module_vendor_analysis [] [⟨1, 101, 100⟩] [] 0 [] [] 1 "CDMX" []
      = Except.error "NameError: name dm_vendors_detail is not defined" := rfl

/-- Claim C9: the embedded load_and_process_data is a pure, deterministic
function of its input tables: identical inputs yield identical output tables. -/
theorem C9_determinismo : ∀ i1 i2 : ReconInputs, i1 = i2 →
    load_and_process_data i1 = load_and_process_data i2 := by
  intro i1 i2 h
  rw [h]

/-- Witness for C9 at the concrete input bundle inputsC9. -/
theorem C9_determinismo_witness :
    load_and_process_data inputsC9 = load_and_process_data inputsC9 :=
  C9_determinismo inputsC9 inputsC9 rfl
